import Mathlib

set_option maxRecDepth 100000

/-!
Verification of a content-publishing platform (news site): shallow embedding
of the article / comment / newsletter data model and its workflows, with
theorems settling the specification's claims.

Conventions of the embedding:
* timestamps are natural numbers (`Nat`); nullable timestamps are `Option Nat`;
* database tables are Lean lists of records, in insertion order;
* Python string truthiness (`if not self.x`) is modelled as emptiness tests;
* SQL `ORDER BY key DESC` is modelled as a stable sort on the single declared
  key: rows comparing equal on the key keep the underlying table order, since
  the query declares no further key.
-/

namespace NewsSite

/-- Words of a string in the sense of Python `str.split()` with no argument:
split on whitespace runs, discarding empty pieces. -/
def pyWords (s : String) : List String :=
  (s.split fun c => c.isWhitespace).filter fun w => w ≠ ""

/-- Word count of article content, as `len(content.split())`. -/
def wordCount (s : String) : Nat :=
  (pyWords s).length

/-- Collapse runs of spaces and hyphens into a single hyphen
(the `re.sub(r"[-\s]+", "-", value)` step of slugification). -/
def collapseSeps (l : List Char) : List Char :=
  (l.foldl
    (fun (acc : List Char × Bool) c =>
      if c = ' ' || c = '-' then
        (if acc.2 then acc.1 else '-' :: acc.1, true)
      else
        (c :: acc.1, false))
    ([], false)).1.reverse

/-- Drop hyphens and underscores from both ends (the `.strip("-_")` step). -/
def stripSepEnds (l : List Char) : List Char :=
  ((l.dropWhile fun c => c = '-' || c = '_').reverse.dropWhile
    fun c => c = '-' || c = '_').reverse

/-- Model of Django's `slugify` (external library used by the models):
lowercase, drop characters that are not word characters, spaces or hyphens,
collapse space/hyphen runs into one hyphen, strip edge hyphens/underscores. -/
def slugify (s : String) : String :=
  let kept := s.toLower.toList.filter fun c =>
    c.isAlphanum || c = '_' || c = ' ' || c = '-'
  String.mk (stripSepEnds (collapseSeps kept))

/-- Case-insensitive substring test (the `icontains` lookup). -/
def icontains (hay needle : String) : Bool :=
  let h := hay.toLower.toList
  let n := needle.toLower.toList
  (List.range (h.length + 1)).any fun i => n.isPrefixOf (h.drop i)

/-- The `Article` model (news/models.py). Foreign keys are carried as ids;
the joined category slug and tag ids/slugs/names are denormalised onto the
row so that the query joins (`category__slug`, `tags__slug`, `tags__name`,
`tags__in`) can be expressed directly. -/
structure Article where
  id : Nat
  title : String
  slug : String
  content : String
  excerpt : String
  status : String
  featured : String
  is_published : Bool
  created_at : Nat
  published_at : Option Nat
  meta_description : String
  meta_keywords : String
  view_count : Nat
  share_count : Nat
  reading_time : Nat
  categoryId : Nat
  categorySlug : String
  tagIds : List Nat
  tagSlugs : List String
  tagNames : List String
deriving Repr, DecidableEq

/-- First step of `Article.save` (news/models.py lines 118-119): derive the
slug from the title when blank. -/
def deriveSlug (a : Article) : Article :=
  if a.slug = "" then { a with slug := slugify a.title } else a

/-- Second step of `Article.save` (news/models.py lines 120-121): when the
excerpt is blank and the content non-empty, auto-fill the excerpt. By Python
conditional-expression precedence the line reads
`(content[:200] + '...') if len(content) > 200 else content`, so the
ellipsis is appended only when the content is longer than 200 characters. -/
def deriveExcerpt (a : Article) : Article :=
  if a.excerpt = "" ∧ a.content ≠ "" then
    { a with excerpt :=
        if a.content.length > 200 then a.content.take 200 ++ "..."
        else a.content }
  else a

/-- Third step of `Article.save` (news/models.py lines 122-123): when
`meta_description` is blank and the (possibly just derived) excerpt is not,
auto-fill it with the excerpt's first 160 characters. -/
def deriveMeta (a : Article) : Article :=
  if a.meta_description = "" ∧ a.excerpt ≠ "" then
    { a with meta_description := a.excerpt.take 160 }
  else a

/-- Fourth step of `Article.save` (news/models.py lines 125-127): recompute
the reading time from the current content, at 200 words per minute, with a
floor of one minute. -/
def deriveReadingTime (a : Article) : Article :=
  { a with reading_time := max 1 (wordCount a.content / 200) }

/-- Last step of `Article.save` (news/models.py lines 129-132): at the first
save where the status is `published` and `published_at` is still null, stamp
`published_at` with the current time and force `is_published`. -/
def applyPublishRule (a : Article) (now : Nat) : Article :=
  if a.status = "published" ∧ a.published_at = none then
    { a with published_at := some now, is_published := true }
  else a

/-- Model of `Article.save` (news/models.py lines 117-134): the derivation pipeline,
in source order, followed by the publish rule, then persistence. -/
def Article.save (a : Article) (now : Nat) : Article :=
  applyPublishRule (deriveReadingTime (deriveMeta (deriveExcerpt (deriveSlug a)))) now

/-- The fields a regular per-article edit can change: exactly the fields
exposed by `ArticleForm` (news/forms.py). Notably absent: `is_published`,
`published_at`, `slug`, `view_count`, `share_count`, `reading_time`,
`created_at`. The tag relation is carried as the denormalised id/slug/name
triples of the chosen tags. -/
structure ArticleEdit where
  title : String
  content : String
  excerpt : String
  categoryId : Nat
  categorySlug : String
  tagIds : List Nat
  tagSlugs : List String
  tagNames : List String
  status : String
  meta_description : String
  meta_keywords : String
deriving Repr, DecidableEq

/-- Apply a form edit to an article instance (before saving). -/
def applyEdit (a : Article) (e : ArticleEdit) : Article :=
  { a with
    title := e.title
    content := e.content
    excerpt := e.excerpt
    categoryId := e.categoryId
    categorySlug := e.categorySlug
    tagIds := e.tagIds
    tagSlugs := e.tagSlugs
    tagNames := e.tagNames
    status := e.status
    meta_description := e.meta_description
    meta_keywords := e.meta_keywords }

/-- One round of the per-article editing workflow: apply a form edit, then
run `Article.save` at the given time. -/
def editSave (a : Article) (et : ArticleEdit × Nat) : Article :=
  (applyEdit a et.1).save et.2

/-- A whole sequence of per-article edit-and-save rounds. -/
def editSaveAll (a : Article) (l : List (ArticleEdit × Nat)) : Article :=
  l.foldl editSave a

/-- The `Comment` model (news/models.py lines 156-190). The `article`
foreign key is `Option Nat` because a freshly constructed in-memory instance
may not have it assigned yet; the storage column itself is non-nullable, so
persisting a comment with `article = none` is a constraint violation. -/
structure Comment where
  id : Nat
  article : Option Nat
  author : Nat
  parent : Option Nat
  content : String
  is_approved : Bool
  is_highlighted : Bool
  is_moderated : Bool
  moderated_by : Option Nat
  moderated_at : Option Nat
deriving Repr, DecidableEq

/-- A comment as created by the comment-submission workflow (`add_comment`
view plus `CommentForm.save`): content and author from the form, article from
the view, every other field at its model default. -/
def Comment.create (id articleId authorId : Nat) (parent : Option Nat)
    (content : String) : Comment :=
  { id := id
    article := some articleId
    author := authorId
    parent := parent
    content := content
    is_approved := true
    is_highlighted := false
    is_moderated := false
    moderated_by := none
    moderated_at := none }

/-- Model of `ReplyForm.save` (news/forms.py lines 89-97): `super().save(commit=False)`
builds a comment instance carrying only the form's `content` field, then the
form assigns `author` from the requesting user and `parent` from the parent
comment. No field of the parent other than its id is copied; in particular
the reply's `article` is never assigned. -/
def replyFormSave (content : String) (user : Option Nat)
    (parent : Option Comment) : Comment :=
  let reply : Comment :=
    { id := 0
      article := none
      author := 0
      parent := none
      content := content
      is_approved := true
      is_highlighted := false
      is_moderated := false
      moderated_by := none
      moderated_at := none }
  let reply :=
    match user with
    | some u => { reply with author := u }
    | none => reply
  match parent with
  | some p => { reply with parent := some p.id }
  | none => reply

/-- The `add_reply` view (news/views.py lines 328-341): look up the parent
comment and run `ReplyForm` with the requesting user and that parent. -/
def add_reply (parent : Comment) (userId : Nat) (content : String) : Comment :=
  replyFormSave content (some userId) (some parent)

/-- Model of `admin_comment_reject` (news/admin_views.py lines 264-276): clear
approval and set the three moderation fields, in one save. -/
def admin_comment_reject (c : Comment) (moderator : Nat) (now : Nat) : Comment :=
  { c with
    is_approved := false
    is_moderated := true
    moderated_by := some moderator
    moderated_at := some now }

/-- A `Newsletter` row (news/models.py lines 193-212), with the
category many-to-many carried as a list of category ids. -/
structure Newsletter where
  email : String
  is_active : Bool
  frequency : String
  categories : List Nat
deriving Repr, DecidableEq

/-- The `newsletter_subscribe` view (news/views.py lines 372-399):
`get_or_create` on the email; when the row already exists, update its
frequency, force `is_active` and save; in both cases replace the category
set with the submitted one. A freshly created row gets the model default
`is_active = true`. -/
def newsletter_subscribe (db : List Newsletter) (email freq : String)
    (cats : List Nat) : List Newsletter :=
  if db.any fun n => n.email == email then
    db.map fun n =>
      if n.email == email then
        { n with frequency := freq, is_active := true, categories := cats }
      else n
  else
    db ++ [{ email := email, is_active := true, frequency := freq,
             categories := cats }]

/-- Insert one article into a list that is already ordered by the comparator
`le` (`le x y` means `x` may come no later than `y`). The new element is
placed before the first element it compares `le` to; comparators return
`true` on ties, so a fold over the table in order is a stable sort. -/
def insertLe (le : Article → Article → Bool) (x : Article) :
    List Article → List Article
  | [] => [x]
  | y :: ys => if le x y then x :: y :: ys else y :: insertLe le x ys

/-- Stable insertion sort of a table by the comparator `le`: rows comparing
equal keep their underlying table order. This models a SQL `ORDER BY` whose
declared keys leave ties unconstrained. -/
def sortByLe (le : Article → Article → Bool) : List Article → List Article
  | [] => []
  | x :: xs => insertLe le x (sortByLe le xs)

/-- Sort key for `ORDER BY published_at DESC`: nulls sort below every
timestamp (so they end up last in descending order). -/
def pubKey (a : Article) : Nat :=
  match a.published_at with
  | some t => t + 1
  | none => 0

/-- Comparator for `ORDER BY published_at DESC` alone, as issued by
`ArticleListView.get_queryset`'s trailing `.order_by('-published_at')`:
`a` may precede `b` whenever its key is no smaller. Ties are `true`, so the
stable sort leaves equal `published_at` rows in table order. -/
def pubDescLe (a b : Article) : Bool :=
  pubKey b ≤ pubKey a

/-- Comparator for the model's default `Meta.ordering`
`['-published_at', '-created_at']`, used by querysets that do not call
`order_by` themselves. -/
def defaultLe (a b : Article) : Bool :=
  pubKey b < pubKey a || (pubKey b == pubKey a && b.created_at ≤ a.created_at)

/-- Comparator for `ORDER BY view_count DESC`. -/
def viewsDescLe (a b : Article) : Bool :=
  b.view_count ≤ a.view_count

/-- The universal visibility predicate: `status == 'published' AND
is_published == true`, as filtered by the reader-facing views. -/
def visibleArticles (db : List Article) : List Article :=
  db.filter fun a => a.status == "published" && a.is_published

/-- Filter parameters of `ArticleListView` (GET parameters). An empty string
models an absent or empty parameter, which Python truthiness skips. -/
structure ListFilters where
  q : String
  categorySlug : String
  tagSlug : String
  dateFrom : Option Nat
  dateTo : Option Nat
deriving Repr, DecidableEq

/-- The free-text search predicate: case-insensitive substring match on
title, content, excerpt, or any tag name. -/
def searchMatch (q : String) (a : Article) : Bool :=
  icontains a.title q || icontains a.content q || icontains a.excerpt q ||
    a.tagNames.any fun n => icontains n q

/-- Model of `ArticleListView.get_queryset` (news/views.py lines 80-114): start from
the visible articles, apply each optional filter in turn, and finish with
`.order_by('-published_at')`. The explicit `order_by` call replaces the
model's default ordering, so `published_at` is the only sort key. The
`.distinct()` after the search join is the identity in this list model
because the table holds each article once. -/
def listRecent (db : List Article) (f : ListFilters) : List Article :=
  let qs := visibleArticles db
  let qs := if f.q ≠ "" then qs.filter (searchMatch f.q) else qs
  let qs :=
    if f.categorySlug ≠ "" then
      qs.filter fun a => a.categorySlug == f.categorySlug
    else qs
  let qs :=
    if f.tagSlug ≠ "" then qs.filter fun a => a.tagSlugs.contains f.tagSlug
    else qs
  let qs :=
    match f.dateFrom with
    | some d =>
      qs.filter fun a =>
        match a.published_at with
        | some t => decide (d ≤ t)
        | none => false
    | none => qs
  let qs :=
    match f.dateTo with
    | some d =>
      qs.filter fun a =>
        match a.published_at with
        | some t => decide (t ≤ d)
        | none => false
    | none => qs
  sortByLe pubDescLe qs

/-- Model of `ArticleDetailView` (news/views.py lines 124-136): slug lookup restricted
to the visible articles; `none` models the 404 on a miss. -/
def getBySlug (db : List Article) (slug : String) : Option Article :=
  (visibleArticles db).find? fun a => a.slug == slug

/-- The featured-highlights query of `HomeView.get_context_data`
(news/views.py lines 44-48): visible articles whose featured flag is one of
featured/trending/breaking, in the model's default order, first six. -/
def getFeaturedHighlights (db : List Article) : List Article :=
  (sortByLe defaultLe ((visibleArticles db).filter fun a =>
    a.featured == "featured" || a.featured == "trending" ||
      a.featured == "breaking")).take 6

/-- The trending query of `HomeView.get_context_data` (news/views.py lines
50-56): visible articles published within the last week (`published_at >=
week_ago`; null `published_at` never matches a `gte` lookup), ordered by
view count descending, first five. -/
def getTrending (db : List Article) (weekAgo : Nat) : List Article :=
  (sortByLe viewsDescLe ((visibleArticles db).filter fun a =>
    match a.published_at with
    | some t => decide (weekAgo ≤ t)
    | none => false)).take 5

/-- Model of `Article.get_related_articles` (news/models.py lines 139-143): all
articles sharing the category or at least one tag, excluding the article
itself, deduplicated, in the model's default order, capped at `limit`.
Note: the queryset starts from `Article.objects`, with no status or
`is_published` filter. -/
def get_related_articles (db : List Article) (a : Article) (limit : Nat) :
    List Article :=
  (sortByLe defaultLe
    ((db.filter fun b =>
        b.categoryId == a.categoryId ||
          b.tagIds.any fun t => a.tagIds.contains t).filter
      fun b => b.id != a.id)).take limit

/-- The `publish_articles` branch of `admin_bulk_actions`
(news/admin_views.py lines 454-459): one bulk `update` setting
`status='published'`, `is_published=True`, `published_at=now` on every row
whose id is among the selected ids. -/
def bulk_publish_articles (db : List Article) (selected : List Nat)
    (now : Nat) : List Article :=
  db.map fun a =>
    if selected.contains a.id then
      { a with status := "published", is_published := true,
               published_at := some now }
    else a

/-- The `unpublish_articles` branch of `admin_bulk_actions`
(news/admin_views.py lines 462-466): one bulk `update` setting only
`is_published=False`; `status` and `published_at` are untouched. -/
def bulk_unpublish_articles (db : List Article) (selected : List Nat) :
    List Article :=
  db.map fun a =>
    if selected.contains a.id then { a with is_published := false } else a

/-! Helper lemmas about the save pipeline. -/

theorem applyEdit_published_at (a : Article) (e : ArticleEdit) :
    (applyEdit a e).published_at = a.published_at := rfl

theorem applyEdit_is_published (a : Article) (e : ArticleEdit) :
    (applyEdit a e).is_published = a.is_published := rfl

theorem deriveSlug_published_at (a : Article) :
    (deriveSlug a).published_at = a.published_at := by
  unfold deriveSlug; split <;> rfl

theorem deriveExcerpt_published_at (a : Article) :
    (deriveExcerpt a).published_at = a.published_at := by
  unfold deriveExcerpt; split <;> rfl

theorem deriveMeta_published_at (a : Article) :
    (deriveMeta a).published_at = a.published_at := by
  unfold deriveMeta; split <;> rfl

theorem deriveReadingTime_published_at (a : Article) :
    (deriveReadingTime a).published_at = a.published_at := rfl

theorem deriveSlug_is_published (a : Article) :
    (deriveSlug a).is_published = a.is_published := by
  unfold deriveSlug; split <;> rfl

theorem deriveExcerpt_is_published (a : Article) :
    (deriveExcerpt a).is_published = a.is_published := by
  unfold deriveExcerpt; split <;> rfl

theorem deriveMeta_is_published (a : Article) :
    (deriveMeta a).is_published = a.is_published := by
  unfold deriveMeta; split <;> rfl

theorem deriveReadingTime_is_published (a : Article) :
    (deriveReadingTime a).is_published = a.is_published := rfl

theorem deriveSlug_status (a : Article) : (deriveSlug a).status = a.status := by
  unfold deriveSlug; split <;> rfl

theorem deriveExcerpt_status (a : Article) :
    (deriveExcerpt a).status = a.status := by
  unfold deriveExcerpt; split <;> rfl

theorem deriveMeta_status (a : Article) : (deriveMeta a).status = a.status := by
  unfold deriveMeta; split <;> rfl

theorem deriveReadingTime_status (a : Article) :
    (deriveReadingTime a).status = a.status := rfl

theorem deriveSlug_content (a : Article) :
    (deriveSlug a).content = a.content := by
  unfold deriveSlug; split <;> rfl

theorem deriveExcerpt_content (a : Article) :
    (deriveExcerpt a).content = a.content := by
  unfold deriveExcerpt; split <;> rfl

theorem deriveMeta_content (a : Article) :
    (deriveMeta a).content = a.content := by
  unfold deriveMeta; split <;> rfl

theorem deriveSlug_excerpt (a : Article) :
    (deriveSlug a).excerpt = a.excerpt := by
  unfold deriveSlug; split <;> rfl

theorem deriveMeta_excerpt (a : Article) :
    (deriveMeta a).excerpt = a.excerpt := by
  unfold deriveMeta; split <;> rfl

theorem deriveReadingTime_excerpt (a : Article) :
    (deriveReadingTime a).excerpt = a.excerpt := rfl

theorem applyPublishRule_excerpt (a : Article) (t : Nat) :
    (applyPublishRule a t).excerpt = a.excerpt := by
  unfold applyPublishRule; split <;> rfl

theorem applyPublishRule_reading_time (a : Article) (t : Nat) :
    (applyPublishRule a t).reading_time = a.reading_time := by
  unfold applyPublishRule; split <;> rfl

/-- The pipeline before the publish rule: the one place `published_at` can
change is `applyPublishRule`, and it fires only when `published_at` is null. -/
theorem save_published_at_of_some (a : Article) (t p : Nat)
    (h : a.published_at = some p) : (a.save t).published_at = some p := by
  have hd : (deriveReadingTime (deriveMeta (deriveExcerpt (deriveSlug a)))).published_at
      = some p := by
    rw [deriveReadingTime_published_at, deriveMeta_published_at,
      deriveExcerpt_published_at, deriveSlug_published_at, h]
  unfold Article.save applyPublishRule
  split <;> simp_all

theorem save_is_published_of_some (a : Article) (t p : Nat)
    (h : a.published_at = some p) :
    (a.save t).is_published = a.is_published := by
  have hd : (deriveReadingTime (deriveMeta (deriveExcerpt (deriveSlug a)))).published_at
      = some p := by
    rw [deriveReadingTime_published_at, deriveMeta_published_at,
      deriveExcerpt_published_at, deriveSlug_published_at, h]
  unfold Article.save applyPublishRule
  split
  · simp_all
  · rw [deriveReadingTime_is_published, deriveMeta_is_published,
      deriveExcerpt_is_published, deriveSlug_is_published]

theorem save_publishes_of_none (a : Article) (t : Nat)
    (hp : a.published_at = none) (hs : a.status = "published") :
    (a.save t).published_at = some t ∧ (a.save t).is_published = true := by
  have hd : (deriveReadingTime (deriveMeta (deriveExcerpt (deriveSlug a)))).published_at
      = none := by
    rw [deriveReadingTime_published_at, deriveMeta_published_at,
      deriveExcerpt_published_at, deriveSlug_published_at, hp]
  have hst : (deriveReadingTime (deriveMeta (deriveExcerpt (deriveSlug a)))).status
      = "published" := by
    rw [deriveReadingTime_status, deriveMeta_status, deriveExcerpt_status,
      deriveSlug_status, hs]
  unfold Article.save applyPublishRule
  split <;> simp_all

theorem save_keeps_none (a : Article) (t : Nat)
    (hp : a.published_at = none) (hs : a.status ≠ "published") :
    (a.save t).published_at = none := by
  have hd : (deriveReadingTime (deriveMeta (deriveExcerpt (deriveSlug a)))).published_at
      = none := by
    rw [deriveReadingTime_published_at, deriveMeta_published_at,
      deriveExcerpt_published_at, deriveSlug_published_at, hp]
  have hst : (deriveReadingTime (deriveMeta (deriveExcerpt (deriveSlug a)))).status
      = a.status := by
    rw [deriveReadingTime_status, deriveMeta_status, deriveExcerpt_status,
      deriveSlug_status]
  unfold Article.save applyPublishRule
  split <;> simp_all

theorem save_reading_time_eq (a : Article) (t : Nat) :
    (a.save t).reading_time = max 1 (wordCount a.content / 200) := by
  unfold Article.save
  rw [applyPublishRule_reading_time]
  show max 1 (wordCount (deriveMeta (deriveExcerpt (deriveSlug a))).content / 200)
      = max 1 (wordCount a.content / 200)
  rw [deriveMeta_content, deriveExcerpt_content, deriveSlug_content]

theorem save_excerpt_eq (a : Article) (t : Nat)
    (hb : a.excerpt = "") (hc : a.content ≠ "") :
    (a.save t).excerpt =
      if a.content.length > 200 then a.content.take 200 ++ "..."
      else a.content := by
  unfold Article.save
  rw [applyPublishRule_excerpt, deriveReadingTime_excerpt, deriveMeta_excerpt]
  have h1 : (deriveSlug a).excerpt = "" := by rw [deriveSlug_excerpt, hb]
  have h2 : (deriveSlug a).content = a.content := deriveSlug_content a
  unfold deriveExcerpt
  rw [if_pos ⟨h1, by rw [h2]; exact hc⟩]
  simp [h2]

theorem editSaveAll_published_at_of_some (a : Article)
    (l : List (ArticleEdit × Nat)) (p : Nat) (h : a.published_at = some p) :
    (editSaveAll a l).published_at = some p := by
  induction l generalizing a with
  | nil => exact h
  | cons et rest ih =>
    have hstep : (editSave a et).published_at = some p := by
      unfold editSave
      exact save_published_at_of_some _ _ _
        (by rw [applyEdit_published_at]; exact h)
    exact ih (editSave a et) hstep

theorem editSaveAll_stays_unpublished (a : Article)
    (l : List (ArticleEdit × Nat)) (p : Nat) (h1 : a.published_at = some p)
    (h2 : a.is_published = false) :
    (editSaveAll a l).published_at = some p ∧
      (editSaveAll a l).is_published = false := by
  induction l generalizing a with
  | nil => exact ⟨h1, h2⟩
  | cons et rest ih =>
    have hpub : (editSave a et).published_at = some p := by
      unfold editSave
      exact save_published_at_of_some _ _ _
        (by rw [applyEdit_published_at]; exact h1)
    have hvis : (editSave a et).is_published = false := by
      unfold editSave
      rw [save_is_published_of_some _ _ p
        (by rw [applyEdit_published_at]; exact h1)]
      rw [applyEdit_is_published]; exact h2
    exact ih (editSave a et) hpub hvis

/-! Concrete fixtures used by witnesses and counterexamples. -/

/-- A fixture article: a draft with everything at its model default. -/
def baseArt : Article :=
  { id := 1
    title := "a sufficiently long title here"
    slug := ""
    content := "word " ++ "word word word word word word word word word"
    excerpt := ""
    status := "draft"
    featured := "normal"
    is_published := false
    created_at := 1
    published_at := none
    meta_description := ""
    meta_keywords := ""
    view_count := 0
    share_count := 0
    reading_time := 0
    categoryId := 1
    categorySlug := "technology"
    tagIds := [1]
    tagSlugs := ["ai"]
    tagNames := ["AI"] }

/-- A fixture article already published at time 5. -/
def pubArt : Article :=
  { baseArt with id := 2, slug := "published-article", status := "published",
                 is_published := true, published_at := some 5 }

/-- A fixture article whose status was just set to published, not yet saved. -/
def readyArt : Article :=
  { baseArt with id := 3, status := "published" }

/-- A fixture article in the state bulk unpublish leaves behind:
`is_published = false` with a non-null `published_at`, status still
`published`. -/
def hiddenArt : Article :=
  { baseArt with id := 4, status := "published", is_published := false,
                 published_at := some 5 }

/-- A fixture form edit; it sets the status to `published`. -/
def sampleEdit : ArticleEdit :=
  { title := "a sufficiently long title here"
    content := "fresh content for the next revision of this article"
    excerpt := ""
    categoryId := 1
    categorySlug := "technology"
    tagIds := [1]
    tagSlugs := ["ai"]
    tagNames := ["AI"]
    status := "published"
    meta_description := ""
    meta_keywords := "" }

/-- A second fixture form edit; it moves the status away from `published`. -/
def sampleEdit2 : ArticleEdit :=
  { sampleEdit with status := "draft",
                    content := "yet another revision of the body text" }

/-- C2 (confirmed). Once `published_at` is non-null, every sequence of
per-article form edits and re-saves leaves it unchanged (form edits cannot
touch `published_at`, and the save rule fires only when it is null); and on
an article with null `published_at`, the first save with status `published`
stamps `published_at` with the save time and forces `is_published` in that
same save, while saves with any other status leave `published_at` null. -/
theorem publishedAtSetOnceAndFrozen (a : Article) :
    (∀ (p : Nat) (l : List (ArticleEdit × Nat)), a.published_at = some p →
        (editSaveAll a l).published_at = some p)
  ∧ (∀ t : Nat, a.published_at = none → a.status = "published" →
        (a.save t).published_at = some t ∧ (a.save t).is_published = true)
  ∧ (∀ t : Nat, a.published_at = none → a.status ≠ "published" →
        (a.save t).published_at = none) := by
  refine ⟨fun p l h => editSaveAll_published_at_of_some a l p h,
    fun t hp hs => save_publishes_of_none a t hp hs,
    fun t hp hs => save_keeps_none a t hp hs⟩

/-- Witness for C2: on the already-published fixture, two further
edit-and-save rounds (one of which toggles the status away and back) leave
`published_at = 5`; the ready-to-publish fixture gets stamped at its first
save; the plain draft stays unstamped. -/
theorem publishedAtSetOnceAndFrozenWitness :
    (editSaveAll pubArt [(sampleEdit2, 9), (sampleEdit, 12)]).published_at
        = some 5
  ∧ ((readyArt.save 7).published_at = some 7
      ∧ (readyArt.save 7).is_published = true)
  ∧ (baseArt.save 7).published_at = none := by
  refine ⟨(publishedAtSetOnceAndFrozen pubArt).1 5 _ rfl,
    (publishedAtSetOnceAndFrozen readyArt).2.1 7 rfl rfl,
    (publishedAtSetOnceAndFrozen baseArt).2.2 7 rfl (by decide)⟩

/-- C10 (confirmed). An article left with `is_published = false` and a
non-null `published_at` — the state bulk `unpublish_articles` produces —
keeps `is_published = false` (and its old `published_at`) across every
sequence of per-article form edits and re-saves, even edits that set the
status to `published`: the save rule only assigns `is_published` when
`published_at` is null, and the form exposes neither field. Among the
modelled operations only `bulk_publish_articles` can make it visible again. -/
theorem unpublishedStaysHiddenAcrossSaves (a : Article) (p : Nat)
    (l : List (ArticleEdit × Nat)) (h1 : a.is_published = false)
    (h2 : a.published_at = some p) :
    (editSaveAll a l).is_published = false ∧
      (editSaveAll a l).published_at = some p := by
  have h := editSaveAll_stays_unpublished a l p h2 h1
  exact ⟨h.2, h.1⟩

/-- Witness for C10: the bulk-unpublished fixture stays hidden across an
edit-and-save round whose edit sets status to `published`. -/
theorem unpublishedStaysHiddenAcrossSavesWitness :
    (editSaveAll hiddenArt [(sampleEdit, 11)]).is_published = false ∧
      (editSaveAll hiddenArt [(sampleEdit, 11)]).published_at = some 5 :=
  unpublishedStaysHiddenAcrossSaves hiddenArt 5 [(sampleEdit, 11)] rfl rfl

/-- C6 (confirmed). Every save recomputes `reading_time` from the current
content as `max 1 (word count / 200)`, where the word count splits the
content on whitespace runs (Python `str.split()`); the previous
`reading_time` value is irrelevant. -/
theorem readingTimeRecomputedOnSave (a : Article) (t : Nat) :
    (a.save t).reading_time = max 1 (wordCount a.content / 200) :=
  save_reading_time_eq a t

/-- Counterexample to C9 as stated: on a blank-excerpt article whose content
is 60 characters long, save copies the content into the excerpt verbatim —
no ellipsis is appended, because the source's conditional expression
parenthesises as `(content[:200] + '...') if len > 200 else content`. -/
theorem excerptShortContentNoEllipsis :
    baseArt.excerpt = "" ∧ baseArt.content ≠ "" ∧
    (baseArt.save 3).excerpt ≠ baseArt.content.take 200 ++ "..." ∧
    (baseArt.save 3).excerpt = baseArt.content := by
  refine ⟨rfl, by decide, by decide, by decide⟩

/-- C9 (corrected). On a save with a blank excerpt and non-empty content:
when the content is longer than 200 characters the excerpt becomes the first
200 characters followed by an ellipsis; otherwise it becomes the content
itself, with no ellipsis. -/
theorem excerptAutofillRule (a : Article) (t : Nat)
    (hb : a.excerpt = "") (hc : a.content ≠ "") :
    (a.save t).excerpt =
      if a.content.length > 200 then a.content.take 200 ++ "..."
      else a.content :=
  save_excerpt_eq a t hb hc

/-- A fixture article with a content longer than 200 characters. -/
def longArt : Article :=
  { baseArt with id := 5,
                 content := String.mk (List.replicate 250 'x') }

/-- Witness for C9 (amended): on the long-content fixture the excerpt gets
the 200-character cut plus ellipsis; on the short-content fixture it gets
the content verbatim. -/
theorem excerptAutofillRuleWitness :
    (longArt.save 3).excerpt = longArt.content.take 200 ++ "..."
  ∧ (baseArt.save 4).excerpt = baseArt.content := by
  constructor
  · rw [excerptAutofillRule longArt 3 rfl (by decide)]
    rw [if_pos (by decide)]
  · rw [excerptAutofillRule baseArt 4 rfl (by decide)]
    rw [if_neg (by decide)]

/-- C5 (confirmed). A comment created by the submission workflow with no
explicit approval value is approved and unmoderated (visible immediately);
and rejecting any comment clears approval and sets all three moderation
fields — moderator and call time included — in the same operation. -/
theorem commentDefaultsAndRejectFields (id articleId authorId : Nat)
    (parent : Option Nat) (content : String) (c : Comment) (m now : Nat) :
    ((Comment.create id articleId authorId parent content).is_approved = true
      ∧ (Comment.create id articleId authorId parent content).is_moderated
          = false)
  ∧ ((admin_comment_reject c m now).is_approved = false
      ∧ (admin_comment_reject c m now).is_moderated = true
      ∧ (admin_comment_reject c m now).moderated_by = some m
      ∧ (admin_comment_reject c m now).moderated_at = some now) :=
  ⟨⟨rfl, rfl⟩, rfl, rfl, rfl, rfl⟩

/-- A fixture parent comment, belonging to article 7. -/
def parentFix : Comment :=
  Comment.create 1 7 3 none "what a great piece of reporting"

/-- C4 (code_bug). The reply workflow never assigns the reply's `article`:
`ReplyForm.save` copies only the form's `content` and then sets `author` and
`parent`, and the `add_reply` view adds nothing, so the built reply has
`article = none` while its parent belongs to article 7. The parent-and-reply
same-article invariant the spec requires of the workflow is not established
(and the non-nullable storage column makes the insert fail outright). -/
theorem replyWorkflowDropsArticle :
    parentFix.article = some 7
  ∧ (add_reply parentFix 2 "thanks for sharing this").parent
      = some parentFix.id
  ∧ (add_reply parentFix 2 "thanks for sharing this").article = none :=
  ⟨rfl, rfl, rfl⟩

/-- C3 (confirmed). The bulk publish action rewrites every selected row to
`status = 'published'`, `is_published = true` and `published_at = now`,
whatever the row held before — in particular it overwrites an already-set
`published_at`. -/
theorem bulkPublishOverwritesPublishedAt (db : List Article)
    (sel : List Nat) (now : Nat) :
    (∀ a ∈ db, a.id ∈ sel →
      ({ a with status := "published", is_published := true,
                published_at := some now } : Article)
        ∈ bulk_publish_articles db sel now)
  ∧ (∀ b ∈ bulk_publish_articles db sel now, b.id ∈ sel →
      b.status = "published" ∧ b.is_published = true
        ∧ b.published_at = some now) := by
  constructor
  · intro a hmem hsel
    have hc : sel.contains a.id = true := by simpa using hsel
    unfold bulk_publish_articles
    refine List.mem_map.mpr ⟨a, hmem, ?_⟩
    rw [if_pos hc]
  · intro b hb hbid
    unfold bulk_publish_articles at hb
    rcases List.mem_map.mp hb with ⟨a, _, hba⟩
    by_cases hc : sel.contains a.id = true
    · rw [if_pos hc] at hba
      rw [← hba]
      exact ⟨rfl, rfl, rfl⟩
    · rw [if_neg hc] at hba
      subst hba
      exact absurd (by simpa using hbid) hc

/-- Witness for C3: in a table holding the already-published fixture
(`published_at = 5`) and the draft fixture, bulk-publishing both at time 20
restamps the published fixture to 20 — the earlier timestamp is overwritten
— and publishes the draft. -/
theorem bulkPublishOverwritesPublishedAtWitness :
    ({ pubArt with status := "published", is_published := true,
                   published_at := some 20 } : Article)
      ∈ bulk_publish_articles [pubArt, baseArt] [2, 1] 20
  ∧ ({ baseArt with status := "published", is_published := true,
                    published_at := some 20 } : Article)
      ∈ bulk_publish_articles [pubArt, baseArt] [2, 1] 20 :=
  ⟨(bulkPublishOverwritesPublishedAt [pubArt, baseArt] [2, 1] 20).1 pubArt
      (by decide) (by decide),
    (bulkPublishOverwritesPublishedAt [pubArt, baseArt] [2, 1] 20).1 baseArt
      (by decide) (by decide)⟩

/-- C7 (confirmed). Against a table satisfying the email uniqueness
constraint: subscribing leaves exactly one row with the given email; when a
row with that email already existed (active or not) that row is updated in
place — frequency and category set replaced, `is_active` forced true — and
no row is added; when the email is new, exactly one fresh active row is
appended. -/
theorem subscribeDedupesAndReactivates (db : List Newsletter)
    (email freq : String) (cats : List Nat)
    (huniq : db.countP (fun n => n.email == email) ≤ 1) :
    ((newsletter_subscribe db email freq cats).countP
        (fun n => n.email == email) = 1)
  ∧ (∀ n ∈ db, n.email = email →
      ({ n with frequency := freq, is_active := true, categories := cats }
          : Newsletter) ∈ newsletter_subscribe db email freq cats)
  ∧ ((∀ n ∈ db, n.email ≠ email) →
      (newsletter_subscribe db email freq cats).length = db.length + 1
      ∧ ({ email := email, is_active := true, frequency := freq,
           categories := cats } : Newsletter)
          ∈ newsletter_subscribe db email freq cats)
  ∧ ((∃ n ∈ db, n.email = email) →
      (newsletter_subscribe db email freq cats).length = db.length) := by
  by_cases h : db.any (fun n => n.email == email) = true
  · have hex : ∃ n ∈ db, n.email = email := by
      rcases List.any_eq_true.mp h with ⟨n, hn, he⟩
      exact ⟨n, hn, by simpa using he⟩
    have hdef : newsletter_subscribe db email freq cats =
        db.map fun n =>
          if n.email == email then
            { n with frequency := freq, is_active := true, categories := cats }
          else n := by
      unfold newsletter_subscribe
      rw [if_pos h]
    refine ⟨?_, ?_, ?_, ?_⟩
    · rw [hdef, List.countP_map]
      have hcong : db.countP
          ((fun n : Newsletter => n.email == email) ∘ fun n =>
            if n.email == email then
              { n with frequency := freq, is_active := true,
                       categories := cats }
            else n) = db.countP fun n => n.email == email := by
        apply List.countP_congr
        intro n _
        simp only [Function.comp_apply]
        by_cases he : (n.email == email) = true
        · rw [if_pos he]
        · rw [if_neg he]
      rw [hcong]
      have hpos : 0 < db.countP fun n => n.email == email := by
        rcases hex with ⟨n, hn, he⟩
        exact List.countP_pos_iff.mpr ⟨n, hn, by simpa using he⟩
      omega
    · intro n hn he
      rw [hdef]
      refine List.mem_map.mpr ⟨n, hn, ?_⟩
      rw [if_pos (by simpa using he)]
    · intro hall
      rcases hex with ⟨n, hn, he⟩
      exact absurd he (hall n hn)
    · intro _
      rw [hdef, List.length_map]
  · have hnone : ∀ n ∈ db, n.email ≠ email := by
      intro n hn he
      exact h (List.any_eq_true.mpr ⟨n, hn, by simpa using he⟩)
    have hdef : newsletter_subscribe db email freq cats =
        db ++ [{ email := email, is_active := true, frequency := freq,
                 categories := cats }] := by
      unfold newsletter_subscribe
      rw [if_neg h]
    refine ⟨?_, ?_, ?_, ?_⟩
    · rw [hdef, List.countP_append]
      have hz : db.countP (fun n => n.email == email) = 0 := by
        rw [List.countP_eq_zero]
        intro n hn
        simpa using hnone n hn
      rw [hz]
      simp
    · intro n hn he
      exact absurd he (hnone n hn)
    · intro _
      rw [hdef]
      constructor
      · simp
      · exact List.mem_append_right _ (by simp)
    · intro hex
      rcases hex with ⟨n, hn, he⟩
      exact absurd he (hnone n hn)

/-- A fixture newsletter table: one inactive weekly subscriber. -/
def newsDb : List Newsletter :=
  [{ email := "reader at example.com", is_active := false,
     frequency := "weekly", categories := [1] }]

/-- Witness for C7: re-subscribing the inactive fixture email switches the
row to daily, replaces its categories, reactivates it, and adds no row. -/
theorem subscribeDedupesAndReactivatesWitness :
    ((newsletter_subscribe newsDb "reader at example.com" "daily" [2]).countP
        (fun n => n.email == "reader at example.com") = 1)
  ∧ ({ email := "reader at example.com", is_active := true,
       frequency := "daily", categories := [2] } : Newsletter)
      ∈ newsletter_subscribe newsDb "reader at example.com" "daily" [2]
  ∧ (newsletter_subscribe newsDb "reader at example.com" "daily" [2]).length
      = newsDb.length := by
  have h := subscribeDedupesAndReactivates newsDb "reader at example.com"
    "daily" [2] (by decide)
  have hrow : ({ email := "reader at example.com", is_active := false,
                 frequency := "weekly", categories := [1] } : Newsletter)
      ∈ newsDb := by
    simp [newsDb]
  refine ⟨h.1, ?_, h.2.2.2 ⟨_, hrow, rfl⟩⟩
  have h2 := h.2.1 _ hrow rfl
  simpa using h2

theorem mem_insertLe {le : Article → Article → Bool} {b x : Article} :
    ∀ {l : List Article}, b ∈ insertLe le x l → b = x ∨ b ∈ l := by
  intro l
  induction l with
  | nil => intro h; simpa [insertLe] using h
  | cons y ys ih =>
    intro h
    rw [insertLe] at h
    by_cases hc : le x y
    · rw [if_pos hc] at h
      rcases List.mem_cons.mp h with h1 | h2
      · exact Or.inl h1
      · exact Or.inr h2
    · rw [if_neg hc] at h
      rcases List.mem_cons.mp h with h1 | h2
      · exact Or.inr (h1 ▸ List.mem_cons_self y ys)
      · rcases ih h2 with h3 | h4
        · exact Or.inl h3
        · exact Or.inr (List.mem_cons_of_mem y h4)

theorem pairwise_insertLe {le : Article → Article → Bool}
    (htot : ∀ a b, le a b = false → le b a = true)
    (htrans : ∀ a b c, le a b = true → le b c = true → le a c = true)
    {x : Article} {l : List Article}
    (hs : l.Pairwise fun a b => le a b = true) :
    (insertLe le x l).Pairwise fun a b => le a b = true := by
  induction l with
  | nil => simp [insertLe]
  | cons y ys ih =>
    rcases List.pairwise_cons.mp hs with ⟨hy, hys⟩
    rw [insertLe]
    by_cases hc : le x y
    · rw [if_pos hc]
      refine List.pairwise_cons.mpr ⟨?_, hs⟩
      intro b hb
      rcases List.mem_cons.mp hb with rfl | hb2
      · exact hc
      · exact htrans x y b hc (hy b hb2)
    · rw [if_neg hc]
      refine List.pairwise_cons.mpr ⟨?_, ih hys⟩
      intro b hb
      rcases mem_insertLe hb with hb1 | hb2
      · rw [hb1]
        exact htot x y (Bool.eq_false_iff.mpr hc)
      · exact hy b hb2

theorem pairwise_sortByLe {le : Article → Article → Bool}
    (htot : ∀ a b, le a b = false → le b a = true)
    (htrans : ∀ a b c, le a b = true → le b c = true → le a c = true) :
    ∀ l : List Article, (sortByLe le l).Pairwise fun a b => le a b = true := by
  intro l
  induction l with
  | nil => simp [sortByLe]
  | cons x xs ih => exact pairwise_insertLe htot htrans ih

theorem pubDescLe_total (a b : Article) :
    pubDescLe a b = false → pubDescLe b a = true := by
  unfold pubDescLe
  intro h
  simp only [decide_eq_false_iff_not] at h
  simpa using Nat.le_of_lt (Nat.lt_of_not_le h)

theorem pubDescLe_trans (a b c : Article) :
    pubDescLe a b = true → pubDescLe b c = true → pubDescLe a c = true := by
  unfold pubDescLe
  intro h1 h2
  simp only [decide_eq_true_eq] at h1 h2
  simpa using Nat.le_trans h2 h1

/-- C8 (corrected, kept part). Every `listRecent` result is ordered newest
published first: along the output, `published_at` keys never increase (null
keys sort below all timestamps). -/
theorem listRecentSortedByPublishedDesc (db : List Article)
    (f : ListFilters) :
    (listRecent db f).Pairwise fun a b => pubKey b ≤ pubKey a := by
  unfold listRecent
  refine List.Pairwise.imp ?_
    (pairwise_sortByLe pubDescLe_total pubDescLe_trans _)
  intro a b hab
  simpa [pubDescLe] using hab

/-- A fixture visible article, created at time 1, published at time 10. -/
def tieA : Article :=
  { baseArt with id := 10, slug := "tie-a", status := "published",
                 is_published := true, created_at := 1,
                 published_at := some 10 }

/-- A fixture visible article, created later (time 2), also published at
time 10. -/
def tieB : Article :=
  { baseArt with id := 11, slug := "tie-b", status := "published",
                 is_published := true, created_at := 2,
                 published_at := some 10 }

/-- The empty filter set (no search, no category/tag, no date range). -/
def noFilters : ListFilters :=
  { q := "", categorySlug := "", tagSlug := "", dateFrom := none,
    dateTo := none }

/-- Counterexample to C8 as stated: with two visible articles sharing
`published_at = 10`, the earlier-created row (`created_at = 1`) comes first
in the `listRecent` output, not the later-created one. The trailing
`.order_by('-published_at')` replaces the model's default
`['-published_at', '-created_at']` ordering, so equal `published_at` rows
are left in underlying table order and no creation-time tie-break exists. -/
theorem listRecentTieOrderCounterexample :
    listRecent [tieA, tieB] noFilters = [tieA, tieB]
  ∧ tieA.published_at = tieB.published_at
  ∧ tieA.created_at < tieB.created_at := by
  exact ⟨by decide, rfl, by decide⟩

/-- A fixture draft article sharing `baseArt`'s category, never published. -/
def draftLeak : Article :=
  { baseArt with id := 6, slug := "draft-leak" }

/-- C1 (code_bug evidence). `get_related_articles` starts from
`Article.objects` with no status or `is_published` filter, so on a table
holding a published article and a draft in the same category, the related
listing of the published article contains the draft — an article with
`status ≠ 'published'` and `is_published = false` appears in `getRelated`
output, violating the universal visibility predicate the spec imposes on
all five listing operations. The other four operations do filter; one
leaking operation falsifies the claim. -/
theorem relatedArticlesLeakUnpublished :
    draftLeak ∈ get_related_articles [pubArt, draftLeak] pubArt 4
  ∧ draftLeak.status ≠ "published"
  ∧ draftLeak.is_published = false
  ∧ getBySlug [pubArt, draftLeak] "draft-leak" = none
  ∧ draftLeak ∉ listRecent [pubArt, draftLeak] noFilters
  ∧ draftLeak ∉ getFeaturedHighlights [pubArt, draftLeak]
  ∧ draftLeak ∉ getTrending [pubArt, draftLeak] 0 := by
  refine ⟨by decide, by decide, rfl, by decide, by decide, by decide,
    by decide⟩

end NewsSite
